import Mathlib

/-!
Verification of the Delhivery AWB poller (`poll.js`).

The source is a single JavaScript file.  Its pure decision logic — status
classification (`interpretStatus` and its helpers), field-delta computation
(the per-issue body of `run`), transition resolution
(`findTransitionByName`), the effect sequencing of `updateJira`, and the
bounded retry loop (`retry`) — is shallowly embedded below.

Modelling conventions:
* JavaScript strings are Lean `String`s; an absent / `null` / `undefined`
  string field is encoded as `""` (every use in the source goes through a
  truthiness test or an `|| ''` default, for which this encoding agrees).
* String operations (`toLowerCase`, `toUpperCase`, `trim`, `includes`,
  case-insensitive regex tests for fixed literal patterns) are defined
  character-wise over `String.data`, matching their ASCII behaviour.
* The `dayjs` / `Date` library is abstracted as a `DateLib` record of three
  functions: `fmt` (`dayjs(x).format('YYYY-MM-DD')`), `valid`
  (`dayjs(x).isValid()`), and `dateVal` (the numeric value `new Date(x)`
  used only for ordering scan events).  All theorems quantify over it.
* A JS object used as a string-keyed record of Jira fields becomes a
  function `FieldId → Option String`.
* `Array.prototype.sort` (stable, with a numeric comparator in the source)
  becomes a stable insertion sort parameterised by the strict comparator.
-/

namespace Poller

/-! ### JS string semantics -/

/-- `s.toLowerCase()` (ASCII). -/
def lowerStr (s : String) : String := String.mk (s.data.map Char.toLower)

/-- `s.toUpperCase()` (ASCII). -/
def upperStr (s : String) : String := String.mk (s.data.map Char.toUpper)

/-- Whitespace characters stripped by `trim` and by the `\s` class of the
`nameNorm` regex (ASCII subset). -/
def isWS (c : Char) : Bool := c == ' ' || c == '\t' || c == '\n' || c == '\r'

/-- `s.trim()`. -/
def trimStr (s : String) : String :=
  String.mk (((s.data.dropWhile isWS).reverse.dropWhile isWS).reverse)

/-- `pat` is a leading segment of the second list. -/
def startsWithL : List Char → List Char → Bool
  | [], _ => true
  | _ :: _, [] => false
  | a :: as, b :: bs => a == b && startsWithL as bs

/-- `pat` occurs contiguously in the list. -/
def containsL (pat : List Char) : List Char → Bool
  | [] => startsWithL pat []
  | b :: bs => startsWithL pat (b :: bs) || containsL pat bs

/-- `s.includes(pat)`. -/
def strIncludes (s pat : String) : Bool := containsL pat.data s.data

/-- `/pat/i.test(s)` for a fixed literal pattern `pat` (already lower-case in
all uses below). -/
def containsCI (s pat : String) : Bool := strIncludes (lowerStr s) (lowerStr pat)

/-- JS `a || b` on strings (empty string is falsy). -/
def jsOr (a b : String) : String := if a = "" then b else a

/-- Characters removed by `nameNorm`'s `/[\s_\-()]+/g`. -/
def nameNormStrip (c : Char) : Bool :=
  isWS c || c == '_' || c == '-' || c == '(' || c == ')'

/-- `poll.js` line 109: lowercase and delete whitespace, `_`, `-`, `(`, `)`. -/
def nameNorm (s : String) : String :=
  String.mk ((lowerStr s).data.filter (fun c => !nameNormStrip c))

/-! ### Stable sort (model of `Array.prototype.sort` with a numeric
comparator; `lt a b` means the comparator is negative, i.e. `a` must come
strictly before `b`) -/

def insertSorted (lt : α → α → Bool) (a : α) : List α → List α
  | [] => [a]
  | b :: bs => if lt a b then a :: b :: bs else b :: insertSorted lt a bs

def sortBy (lt : α → α → Bool) : List α → List α
  | [] => []
  | a :: as => insertSorted lt a (sortBy lt as)

/-! ### The dayjs / Date library interface used by the source -/

/-- Abstraction of the date library: `fmt` is
`dayjs(x).format('YYYY-MM-DD')`, `valid` is `dayjs(x).isValid()`, and
`dateVal` is the numeric timestamp `new Date(x).getTime()` used by the
sort comparators. -/
structure DateLib where
  fmt : String → String
  valid : String → Bool
  dateVal : String → Nat

/-! ### Data model (`ShipmentData[0].Shipment` payload) -/

/-- One scan event's `ScanDetail` object. -/
structure ScanDetail where
  ScanType : String := ""
  Scan : String := ""
  Instructions : String := ""
  ScanDateTime : String := ""
  StatusDateTime : String := ""
  StatusCode : String := ""
  ScannedLocation : String := ""
deriving DecidableEq, Repr

/-- The `Status` object of a shipment (absent object ≡ all fields empty,
matching the source's `t?.Status || {}`). -/
structure StatusBlock where
  Status : String := ""
  StatusType : String := ""
  ScanType : String := ""
  Instructions : String := ""
  StatusDateTime : String := ""
  StatusLocation : String := ""
  StatusCode : String := ""
deriving DecidableEq, Repr

/-- A shipment tracking record.  `Scans` holds the `ScanDetail` objects (the
source always dereferences the wrapper via `x?.ScanDetail || {}`); an absent
scan array is the empty list. -/
structure Tracking where
  Status : StatusBlock := {}
  Scans : List ScanDetail := []
  DeliveryDate : String := ""
  ReturnedDate : String := ""
  RTOStartedDate : String := ""
  ReverseInTransit : Bool := false
  OriginRecieveDate : String := ""
  DestRecieveDate : String := ""
  PromisedDeliveryDate : String := ""
  ExpectedDeliveryDate : String := ""
deriving DecidableEq, Repr

/-! ### Static tables (`poll.js` lines 65–103) -/

/-- `STATUS_MAP` (lines 65–84): fallback raw-label → phase lookup. -/
def STATUS_MAP (s : String) : Option String :=
  if s = "Ready for pickup" then some "PICKUP SCHEDULED"
  else if s = "In Transit" then some "IN - TRANSIT"
  else if s = "Delivered" then some "DELIVERED"
  else if s = "Out for delivery" then some "OUT FOR DELIVERY"
  else if s = "RTO" then some "RTO IN - TRANSIT"
  else if s = "RTO - In Transit" then some "RTO IN - TRANSIT"
  else if s = "In Transit For Return" then some "RTO IN - TRANSIT"
  else if s = "Delayed" then some "IN - TRANSIT"
  else if s = "DELAYED" then some "IN - TRANSIT"
  else if s = "On Time" then some "IN - TRANSIT"
  else if s = "RTO - Returned" then some "RTO DELIVERED"
  else if s = "Cancelled" then some "PICKUP EXCEPTION - DELHIVERY"
  else if s = "Shipment delivery cancelled via OTP" then some "PICKUP EXCEPTION - DELHIVERY"
  else if s = "NDR" then some "NDR"
  else if s = "Manifested" then some "PICKUP SCHEDULED"
  else if s = "Pending" then some "PICKUP SCHEDULED"
  else if s = "Not Picked" then some "PICKUP EXCEPTION - DELHIVERY"
  else if s = "Dispatched" then some "IN - TRANSIT"
  else none

/-- `JIRA_STATUS_ALIASES` (lines 86–92). -/
def JIRA_STATUS_ALIASES (s : String) : Option (List String) :=
  if s = "RTO IN - TRANSIT" then
    some ["RTO IN - TRANSIT", "RTO IN-TRANSIT", "RTO IN TRANSIT",
          "Return In-Transit", "Return In Transit", "RTO In Transit"]
  else if s = "IN - TRANSIT" then some ["IN - TRANSIT", "IN-TRANSIT", "IN TRANSIT"]
  else if s = "PICKUP SCHEDULED" then some ["PICKUP SCHEDULED", "Pickup Scheduled"]
  else if s = "DELIVERED" then some ["DELIVERED", "Delivered"]
  else if s = "RTO DELIVERED" then some ["RTO DELIVERED", "RETURN DELIVERED", "Return Delivered"]
  else none

/-- `VERIFIED_CXL_PHRASES` (lines 95–99). -/
def VERIFIED_CXL_PHRASES : List String :=
  ["whatsapp verified cancellation",
   "code verified cancellation",
   "consignee refused to accept/order cancelled"]

/-- `VERIFIED_CXL_RE.test(s)` — case-insensitive alternation over the three
fixed phrases (lines 100–103). -/
def verifiedCxlTest (s : String) : Bool :=
  VERIFIED_CXL_PHRASES.any (fun p => containsCI s p)

/-! ### Classification helpers (`poll.js` lines 345–381) -/

/-- `hasRecentRTScan` (lines 345–348): an `RT`-typed scan among the last
`lookback` (default 8) scan events. -/
def hasRecentRTScan (t : Tracking) (lookback : Nat := 8) : Bool :=
  (t.Scans.drop (t.Scans.length - lookback)).any
    (fun x => upperStr x.ScanType == "RT")

/-- `(s.StatusType || s.ScanType || '')` as used throughout the source. -/
def statusTypeOf (s : StatusBlock) : String := jsOr s.StatusType s.ScanType

/-- `hasTerminalRTO` (lines 350–366). -/
def hasTerminalRTO (t : Tracking) : Bool :=
  let s := t.Status
  let instr := lowerStr s.Instructions
  if t.ReturnedDate != "" then true
  else if upperStr (statusTypeOf s) == "DL" &&
      (strIncludes (lowerStr s.Status) "rto" || strIncludes instr "return accepted") then true
  else t.Scans.any (fun sd =>
    upperStr sd.ScanType == "DL" &&
      (strIncludes (lowerStr sd.Scan) "rto" ||
       strIncludes (lowerStr sd.Instructions) "return accepted"))

/-- `isReturnFlow` (lines 368–381). -/
def isReturnFlow (t : Tracking) : Bool :=
  let s := t.Status
  let statusType := upperStr (statusTypeOf s)
  let statusTxt := lowerStr s.Status
  let instr := lowerStr s.Instructions
  (statusType == "RT" || statusType == "RTO" || statusType == "RET") ||
  t.ReverseInTransit ||
  t.RTOStartedDate != "" ||
  hasRecentRTScan t ||
  strIncludes statusTxt "rto" ||
  strIncludes instr "rto"

/-- The rule-2 condition of `interpretStatus` (lines 396–401): explicit
delivery timestamp, terminal `DL` status type, or "delivered" in the status
or instruction text. -/
def forwardTerminalSignal (t : Tracking) : Bool :=
  let s := t.Status
  t.DeliveryDate != "" ||
  upperStr (statusTypeOf s) == "DL" ||
  containsCI (trimStr s.Status) "delivered" ||
  containsCI (lowerStr s.Instructions) "delivered"

/-- `interpretStatus` (lines 387–448): the ordered classification cascade.
Returns `none` where the source returns `null` (unknown). -/
def interpretStatus (t : Tracking) : Option String :=
  let s := t.Status
  let status := trimStr s.Status
  let instructions := lowerStr s.Instructions
  if hasTerminalRTO t then some "RTO DELIVERED"
  else if forwardTerminalSignal t then some "DELIVERED"
  else if isReturnFlow t then some "RTO IN - TRANSIT"
  else if strIncludes instructions "consignee will collect" then some "IN - TRANSIT"
  else if strIncludes instructions "consignee to collect from branch" then some "IN - TRANSIT"
  else if strIncludes instructions "shipment received at facility" then some "IN - TRANSIT"
  else if strIncludes instructions "consignee unavailable" then some "IN - TRANSIT"
  else if strIncludes instructions "agent remark incorrect" then some "IN - TRANSIT"
  else if strIncludes instructions "unlock" then some "IN - TRANSIT"
  else if strIncludes instructions "regional holiday" then some "IN - TRANSIT"
  else if strIncludes instructions "arriving today" then some "IN - TRANSIT"
  else if strIncludes instructions "office/institute closed" then some "IN - TRANSIT"
  else if strIncludes instructions "package found in audit" then some "IN - TRANSIT"
  else if strIncludes instructions "unexpected scan" then some "IN - TRANSIT"
  else if strIncludes instructions "receipient wants open delivery" then some "IN - TRANSIT"
  else if strIncludes instructions "agent remark verified" then some "IN - TRANSIT"
  else if strIncludes instructions "reattempt as per client\x27s instruction" then some "IN - TRANSIT"
  else if strIncludes instructions "center changed by system" then some "IN - TRANSIT"
  else if strIncludes instructions "reattempt - as per ndr instructions" then some "IN - TRANSIT"
  else if strIncludes instructions "package details changed by shipper" then some "IN - TRANSIT"
  else if strIncludes instructions "service disruption" then some "IN - TRANSIT"
  else if strIncludes instructions "vehicle departed" then some "IN - TRANSIT"
  else if strIncludes instructions "shipment picked up" then some "IN - TRANSIT"
  else if strIncludes instructions "payment mode / amt dispute" then some "IN - TRANSIT"
  else if verifiedCxlTest instructions then some "RTO IN - TRANSIT"
  else if strIncludes instructions "dispatched for rto" then some "RTO IN - TRANSIT"
  else if strIncludes instructions "return accepted" then some "RTO DELIVERED"
  else if strIncludes instructions "not attempted" then some "NDR"
  else if strIncludes instructions "maximum attempts reached" then some "IN - TRANSIT"
  else if strIncludes instructions "package missing in audit" then some "IN - TRANSIT"
  else if strIncludes instructions "package found in audit" then some "IN - TRANSIT"
  else if strIncludes instructions "delivery rescheduled by customer" then some "IN - TRANSIT"
  else if strIncludes instructions "delayed due to weather conditions" then some "IN - TRANSIT"
  else if strIncludes instructions "natural disaster" then some "IN - TRANSIT"
  else if strIncludes instructions "ntd updated" then some "RTO IN - TRANSIT"
  else if strIncludes instructions "returned as per security instruction" then some "RTO IN - TRANSIT"
  else if strIncludes instructions "recipient unavailable.establishment closed" then some "RTO IN - TRANSIT"
  else STATUS_MAP status

/-! ### Scan-derived values (`poll.js` lines 479–528) -/

/-- The record returned by `getLatestInstruction`. -/
structure LatestIns where
  instruction : String := ""
  when : String := ""
  whereLoc : String := ""
  code : String := ""
deriving DecidableEq, Repr

/-- Sort key of the scan comparators in `getLatestInstruction` and
`getOFDWhen`: `new Date(x.ScanDateTime || 0)`. -/
def scanTimeKey (dl : DateLib) (sd : ScanDetail) : Nat :=
  if sd.ScanDateTime = "" then 0 else dl.dateVal sd.ScanDateTime

/-- Sort key of the comparator in `findVerifiedCancellation`:
`new Date(x.StatusDateTime || x.ScanDateTime || 0)`. -/
def cxlTimeKey (dl : DateLib) (sd : ScanDetail) : Nat :=
  if sd.StatusDateTime = "" then
    (if sd.ScanDateTime = "" then 0 else dl.dateVal sd.ScanDateTime)
  else dl.dateVal sd.StatusDateTime

/-- `getLatestInstruction` (lines 479–502). -/
def getLatestInstruction (dl : DateLib) (t : Tracking) : Option LatestIns :=
  let statusIns := trimStr t.Status.Instructions
  if t.Status.Instructions ≠ "" ∧ statusIns ≠ "" then
    some { instruction := statusIns
           when := jsOr t.Status.StatusDateTime (jsOr t.DeliveryDate t.DestRecieveDate)
           whereLoc := t.Status.StatusLocation
           code := t.Status.StatusCode }
  else
    let candidates := t.Scans.filter (fun sd => sd.Instructions ≠ "" ∨ sd.Scan ≠ "")
    match (sortBy (fun a b => scanTimeKey dl b < scanTimeKey dl a) candidates).head? with
    | none => none
    | some latest =>
      some { instruction := trimStr (jsOr latest.Instructions latest.Scan)
             when := jsOr latest.StatusDateTime latest.ScanDateTime
             whereLoc := latest.ScannedLocation
             code := latest.StatusCode }

/-- `getOFDWhen` (lines 504–519): timestamp of the out-for-delivery event.
Returns `""` where the source returns a falsy value. -/
def getOFDWhen (dl : DateLib) (t : Tracking) (latestIns : Option LatestIns) : String :=
  match latestIns with
  | some li =>
    if containsCI li.instruction "out for delivery" ∧ li.when ≠ "" then li.when
    else getOFDWhenNoIns dl t
  | none => getOFDWhenNoIns dl t
where
  /-- The part of `getOFDWhen` after the `latestIns` early return. -/
  getOFDWhenNoIns (dl : DateLib) (t : Tracking) : String :=
    if containsCI (jsOr t.Status.Instructions t.Status.Status) "out for delivery" ∧
        t.Status.StatusDateTime ≠ "" then
      t.Status.StatusDateTime
    else
      let ofdScans := t.Scans.filter (fun sd => containsCI (jsOr sd.Instructions sd.Scan) "out for delivery")
      match (sortBy (fun a b => scanTimeKey dl b < scanTimeKey dl a) ofdScans).head? with
      | some sd => jsOr sd.StatusDateTime sd.ScanDateTime
      | none => t.Status.StatusDateTime

/-- `findVerifiedCancellation` (lines 521–528): earliest scan whose
instructions match a verified-cancellation phrase (ascending sort, first
element). -/
def findVerifiedCancellation (dl : DateLib) (t : Tracking) : Option ScanDetail :=
  let matched := t.Scans.filter (fun sd => verifiedCxlTest sd.Instructions)
  (sortBy (fun a b => cxlTimeKey dl a < cxlTimeKey dl b) matched).head?

/-! ### Jira issue model and field deltas -/

/-- The auxiliary Jira custom fields written by the poller. -/
inductive FieldId
  | dispatchDate
  | deliveryDate
  | rtoDeliveredDate
  | promisedDeliveryDate
  | latestPdd
  | rtoReason
  | rtoInitiatedDate
  | outForDeliveryDate
  | latestInstruction
deriving DecidableEq, Repr

def FieldId.all : List FieldId :=
  [.dispatchDate, .deliveryDate, .rtoDeliveredDate, .promisedDeliveryDate,
   .latestPdd, .rtoReason, .rtoInitiatedDate, .outForDeliveryDate, .latestInstruction]

/-- A Jira issue as the poller sees it: workflow status name plus the stored
values of the auxiliary fields (`""` encodes an empty / unset field). -/
structure Issue where
  status : String := ""
  dispatchDate : String := ""
  deliveryDate : String := ""
  rtoDeliveredDate : String := ""
  promisedDeliveryDate : String := ""
  latestPdd : String := ""
  rtoReason : String := ""
  rtoInitiatedDate : String := ""
  outForDeliveryDate : String := ""
  latestInstruction : String := ""
deriving DecidableEq, Repr

def Issue.getField (issue : Issue) : FieldId → String
  | .dispatchDate => issue.dispatchDate
  | .deliveryDate => issue.deliveryDate
  | .rtoDeliveredDate => issue.rtoDeliveredDate
  | .promisedDeliveryDate => issue.promisedDeliveryDate
  | .latestPdd => issue.latestPdd
  | .rtoReason => issue.rtoReason
  | .rtoInitiatedDate => issue.rtoInitiatedDate
  | .outForDeliveryDate => issue.outForDeliveryDate
  | .latestInstruction => issue.latestInstruction

/-- The `customFields` object accumulated by `run`: a partial map from
field id to the value to be written. -/
def Delta := FieldId → Option String

def Delta.empty : Delta := fun _ => none

def Delta.set (d : Delta) (k : FieldId) (v : String) : Delta :=
  fun k' => if k' = k then some v else d k'

/-- `Object.keys(customFields).length === 0`. -/
def Delta.isEmpty (d : Delta) : Bool := FieldId.all.all (fun k => (d k).isNone)

/-- Applying a field delta to an issue (the effect of the `PUT` with
`fields`): each present key overwrites the stored value. -/
def applyDelta (issue : Issue) (d : Delta) : Issue :=
  { issue with
    dispatchDate := (d .dispatchDate).getD issue.dispatchDate
    deliveryDate := (d .deliveryDate).getD issue.deliveryDate
    rtoDeliveredDate := (d .rtoDeliveredDate).getD issue.rtoDeliveredDate
    promisedDeliveryDate := (d .promisedDeliveryDate).getD issue.promisedDeliveryDate
    latestPdd := (d .latestPdd).getD issue.latestPdd
    rtoReason := (d .rtoReason).getD issue.rtoReason
    rtoInitiatedDate := (d .rtoInitiatedDate).getD issue.rtoInitiatedDate
    outForDeliveryDate := (d .outForDeliveryDate).getD issue.outForDeliveryDate
    latestInstruction := (d .latestInstruction).getD issue.latestInstruction }

/-! ### Field-delta computation (`buildDateUpdates`, lines 453–477, and the
per-issue field logic of `run`, lines 665–774), split into one step per
source block -/

/-- Dispatch date (lines 459–462): overwrite-allowed. -/
def stepDispatch (dl : DateLib) (issue : Issue) (t : Tracking) (d : Delta) : Delta :=
  if t.OriginRecieveDate ≠ "" then
    let v := dl.fmt t.OriginRecieveDate
    if issue.dispatchDate ≠ v then d.set .dispatchDate v else d
  else d

/-- Delivery date (lines 465–468): forward phase only, overwrite-allowed. -/
def stepDelivery (dl : DateLib) (issue : Issue) (t : Tracking) (updatedStatus : String)
    (d : Delta) : Delta :=
  if t.DeliveryDate ≠ "" ∧ updatedStatus = "DELIVERED" then
    let v := dl.fmt t.DeliveryDate
    if issue.deliveryDate ≠ v then d.set .deliveryDate v else d
  else d

/-- RTO delivered date (lines 471–474): return phase only, overwrite-allowed. -/
def stepRtoDate (dl : DateLib) (issue : Issue) (t : Tracking) (updatedStatus : String)
    (d : Delta) : Delta :=
  if t.ReturnedDate ≠ "" ∧ updatedStatus = "RTO DELIVERED" then
    let v := dl.fmt t.ReturnedDate
    if issue.rtoDeliveredDate ≠ v then d.set .rtoDeliveredDate v else d
  else d

/-- `buildDateUpdates` (lines 453–477). -/
def buildDateUpdates (dl : DateLib) (issue : Issue) (t : Tracking)
    (updatedStatus : String) : Delta :=
  stepRtoDate dl issue t updatedStatus
    (stepDelivery dl issue t updatedStatus
      (stepDispatch dl issue t Delta.empty))

/-- Promised delivery date (lines 667–680): write-once. -/
def stepPDD (dl : DateLib) (issue : Issue) (t : Tracking) (d : Delta) : Delta :=
  if issue.promisedDeliveryDate = "" then
    if t.PromisedDeliveryDate ≠ "" then
      let pdd := if dl.valid t.PromisedDeliveryDate then dl.fmt t.PromisedDeliveryDate else ""
      if pdd ≠ "" then d.set .promisedDeliveryDate pdd else d
    else d
  else d

/-- Latest promised delivery date (lines 682–696): overwrite-allowed. -/
def stepLatestPDD (dl : DateLib) (issue : Issue) (t : Tracking) (d : Delta) : Delta :=
  let rawLatestPDD := jsOr t.ExpectedDeliveryDate t.PromisedDeliveryDate
  if rawLatestPDD ≠ "" then
    let newPdd := if dl.valid rawLatestPDD then dl.fmt rawLatestPDD else ""
    if newPdd ≠ "" ∧ newPdd ≠ issue.latestPdd then d.set .latestPdd newPdd else d
  else d

/-- RTO reason and RTO initiated date (lines 698–727): write-once, only from
a verified-cancellation scan and only when the final status is a return
status. -/
def stepRtoFields (dl : DateLib) (issue : Issue) (t : Tracking) (updatedStatus : String)
    (d : Delta) : Delta :=
  match findVerifiedCancellation dl t with
  | some cancelEvent =>
    if updatedStatus = "RTO IN - TRANSIT" ∨ updatedStatus = "RTO DELIVERED" then
      let reasonText := trimStr cancelEvent.Instructions
      let whenT := jsOr cancelEvent.StatusDateTime cancelEvent.ScanDateTime
      let dateYmd := if whenT ≠ "" then dl.fmt whenT else ""
      let d := if issue.rtoReason = "" ∧ reasonText ≠ "" then d.set .rtoReason reasonText else d
      if issue.rtoInitiatedDate = "" ∧ dateYmd ≠ "" then d.set .rtoInitiatedDate dateYmd else d
    else d
  | none => d

/-- Latest instruction text plus the out-for-delivery date taken from the
instruction (lines 729–759). -/
def stepInstrOFD (dl : DateLib) (issue : Issue) (t : Tracking) (d : Delta) : Delta :=
  match getLatestInstruction dl t with
  | some latestIns =>
    let instrOnly := latestIns.instruction
    let d := if instrOnly ≠ "" ∧ issue.latestInstruction ≠ instrOnly then
               d.set .latestInstruction instrOnly else d
    if issue.outForDeliveryDate = "" ∧ containsCI instrOnly "out for delivery" then
      let whenFromInstr := getOFDWhen dl t (some latestIns)
      if whenFromInstr ≠ "" then
        let ofdDate := dl.fmt whenFromInstr
        if ofdDate ≠ "" then d.set .outForDeliveryDate ofdDate else d
      else d
    else d
  | none => d

/-- Out-for-delivery date from the status fallback (lines 761–774). -/
def stepOFDStatus (dl : DateLib) (issue : Issue) (t : Tracking) (updatedStatus : String)
    (d : Delta) : Delta :=
  if issue.outForDeliveryDate = "" ∧ updatedStatus = "OUT FOR DELIVERY" then
    let whenFromStatus := getOFDWhen dl t (getLatestInstruction dl t)
    if whenFromStatus ≠ "" then
      let ofdDate := dl.fmt whenFromStatus
      if ofdDate ≠ "" then d.set .outForDeliveryDate ofdDate else d
    else d
  else d

/-- The complete `customFields` object prepared by `run` for one issue
(lines 665–774), in source order. -/
def computeCustomFields (dl : DateLib) (issue : Issue) (t : Tracking)
    (updatedStatus : String) : Delta :=
  stepOFDStatus dl issue t updatedStatus
    (stepInstrOFD dl issue t
      (stepRtoFields dl issue t updatedStatus
        (stepLatestPDD dl issue t
          (stepPDD dl issue t
            (buildDateUpdates dl issue t updatedStatus)))))

/-! ### Per-issue driver outcome (`run`, lines 632–802) -/

/-- What the driver decides for one ticket, after the tracking fetch. -/
inductive Outcome
  /-- `!tracking` (line 646): no tracking payload; log and `continue`. -/
  | noTracking
  /-- `!updatedStatus` (line 659): unmapped status; log and `continue`. -/
  | unknownStatus
  /-- Normalized status already matches (line 777): fields-only update,
  counted as skipped; no transition attempt. -/
  | fieldsOnly (delta : Delta)
  /-- Otherwise: `updateJira` with the new status and the delta. -/
  | update (newStatus : String) (delta : Delta)

/-- The decision logic of `run`'s per-issue body from the tracking fetch
onward (lines 645–799). -/
def processIssue (dl : DateLib) (issue : Issue) (trackingOpt : Option Tracking) : Outcome :=
  match trackingOpt with
  | none => .noTracking
  | some t =>
    match interpretStatus t with
    | none => .unknownStatus
    | some updatedStatus =>
      let customFields := computeCustomFields dl issue t updatedStatus
      if issue.status ≠ "" ∧ nameNorm issue.status = nameNorm updatedStatus then
        .fieldsOnly customFields
      else
        .update updatedStatus customFields

/-! ### Transition resolution and `updateJira` effects (lines 270–329) -/

/-- A workflow transition offered by Jira: its id and target status name
(`t.id`, `t.to?.name`). -/
structure TransitionCand where
  id : String := ""
  toName : String := ""
deriving DecidableEq, Repr

/-- `findTransitionByName` (lines 270–285): alias match, then a fuzzy
fallback for the RTO-in-transit phase. -/
def findTransitionByName (transitions : List TransitionCand) (target : String) :
    Option TransitionCand :=
  let targets := ((JIRA_STATUS_ALIASES target).getD [target]).map nameNorm
  match transitions.find? (fun tr => targets.contains (nameNorm tr.toName)) with
  | some exact => some exact
  | none =>
    if strIncludes (nameNorm target) "rtointransit" then
      transitions.find? (fun tr =>
        strIncludes (nameNorm tr.toName) "rto" && strIncludes (nameNorm tr.toName) "transit")
    else none

/-- `POST_DELIVERY_ASSIGNEE` default (line 22). -/
def POST_DELIVERY_ASSIGNEE : String := "712020:d710d4e8-270f-4d7a-b65a-7303f71783fb"

/-- An observable Jira side effect of `updateJira`. -/
inductive JiraAction
  /-- `POST .../transitions` with the transition id. -/
  | transitionAct (id : String)
  /-- `PUT` of the custom-field values. -/
  | putFieldsAct (fields : Delta)
  /-- `postCommentADF` with the given text. -/
  | commentAct (text : String)
  /-- `PUT .../assignee`. -/
  | assignAct (accountId : String)

/-- `postCommentADF` (lines 257–268): posts nothing for an empty text. -/
def postCommentActions (text : String) : List JiraAction :=
  if text = "" then [] else [.commentAct text]

/-- The sequence of Jira side effects performed by `updateJira`
(lines 287–329), given the transitions Jira offers for the issue. -/
def updateJiraActions (transitions : List TransitionCand) (newStatus : String)
    (customFields : Delta) (comment : Option String) : List JiraAction :=
  match findTransitionByName transitions newStatus with
  | none =>
    (if customFields.isEmpty then [] else [.putFieldsAct customFields]) ++
    (match comment with
     | some c => postCommentActions
         ("[Note] Intended status \"" ++ newStatus ++ "\" but no transition was available. " ++ c)
     | none => [])
  | some transition =>
    [.transitionAct transition.id] ++
    (if customFields.isEmpty then [] else [.putFieldsAct customFields]) ++
    (if newStatus = "DELIVERED" ∨ newStatus = "RTO DELIVERED" then
       [.assignAct POST_DELIVERY_ASSIGNEE] else []) ++
    (match comment with
     | some c => postCommentActions c
     | none => [])

/-! ### Bounded retry (`retry`, lines 227–240, and `getTracking`,
lines 245–252) -/

/-- The retry loop: `results` lists the outcome each attempt would produce
(`none` = the attempt throws), one entry per allowed attempt.  Returns the
first success (or `none` after exhausting all attempts) together with the
number of attempts actually performed. -/
def retryRun (results : List (Option α)) : Option α × Nat :=
  match results with
  | [] => (none, 0)
  | r :: rest =>
    match r with
    | some v => (some v, 1)
    | none =>
      let out := retryRun rest
      (out.1, out.2 + 1)

/-- `getTracking` (lines 245–252): `retry` with its default of 3 attempts.
`attempts i` is what the `i`-th request would return (`none` = failure). -/
def getTracking (attempts : Fin 3 → Option Tracking) : Option Tracking × Nat :=
  retryRun (List.ofFn attempts)

/-! ### Derived values used to characterize the delta key-by-key -/

/-- The promised-delivery-date value `run` would write (`""` when the raw
value is absent or invalid). -/
def pddValue (dl : DateLib) (t : Tracking) : String :=
  if dl.valid t.PromisedDeliveryDate then dl.fmt t.PromisedDeliveryDate else ""

/-- The latest-PDD value `run` would write (`""` when absent or invalid). -/
def latestPddValue (dl : DateLib) (t : Tracking) : String :=
  let raw := jsOr t.ExpectedDeliveryDate t.PromisedDeliveryDate
  if raw = "" then "" else if dl.valid raw then dl.fmt raw else ""

/-- The RTO-reason text `run` would write (`""` when no verified
cancellation exists or its instruction trims to empty). -/
def rtoReasonValue (dl : DateLib) (t : Tracking) : String :=
  match findVerifiedCancellation dl t with
  | some cancelEvent => trimStr cancelEvent.Instructions
  | none => ""

/-- The RTO-initiated-date value `run` would write. -/
def rtoDateValue (dl : DateLib) (t : Tracking) : String :=
  match findVerifiedCancellation dl t with
  | some cancelEvent =>
    let whenT := jsOr cancelEvent.StatusDateTime cancelEvent.ScanDateTime
    if whenT ≠ "" then dl.fmt whenT else ""
  | none => ""

/-- The latest-instruction text `run` would write. -/
def instrValue (dl : DateLib) (t : Tracking) : String :=
  match getLatestInstruction dl t with
  | some latestIns => latestIns.instruction
  | none => ""

/-- Whether the latest instruction matches "out for delivery". -/
def instrMatchesOFD (dl : DateLib) (t : Tracking) : Bool :=
  match getLatestInstruction dl t with
  | some latestIns => containsCI latestIns.instruction "out for delivery"
  | none => false

/-- The out-for-delivery timestamp both OFD branches of `run` consult. -/
def ofdWhenValue (dl : DateLib) (t : Tracking) : String :=
  getOFDWhen dl t (getLatestInstruction dl t)

/-- The formatted out-for-delivery date `run` would write. -/
def ofdDateValue (dl : DateLib) (t : Tracking) : String :=
  if ofdWhenValue dl t ≠ "" then dl.fmt (ofdWhenValue dl t) else ""

/-- `a` is a workflow-transition execution. -/
def JiraAction.isTransitionCall : JiraAction → Bool
  | .transitionAct _ => true
  | _ => false

/-- `a` is an assignee change. -/
def JiraAction.isAssignCall : JiraAction → Bool
  | .assignAct _ => true
  | _ => false

/-! ### Concrete fixtures used by the witness theorems -/

/-- A concrete date library for witnesses: identity formatting, everything
valid, timestamp = string length. -/
def dlTest : DateLib :=
  { fmt := fun s => s, valid := fun _ => true, dateVal := fun s => s.length }

/-- A record whose scan history contains an out-for-delivery scan but whose
latest instruction does not mention it. -/
def ofdHistoryOnly : Tracking :=
  { Status := { Instructions := "Shipment received at facility" },
    Scans := [{ Instructions := "Out for delivery", ScanDateTime := "2024-01-01" }] }

/-- A record whose latest (status) instruction is an out-for-delivery event
with a timestamp. -/
def ofdLatestTrack : Tracking :=
  { Status := { Instructions := "Out for delivery", StatusDateTime := "2024-02-02" } }

/-- The latest-instruction record `getLatestInstruction` yields for
`ofdLatestTrack`. -/
def liOFD : LatestIns :=
  { instruction := "Out for delivery", when := "2024-02-02" }

/-- A verified-cancellation scan with the later timestamp (length 5). -/
def cxlLate : ScanDetail :=
  { Instructions := "WhatsApp Verified cancellation by consignee", StatusDateTime := "11111" }

/-- A verified-cancellation scan with the earlier timestamp (length 2). -/
def cxlEarly : ScanDetail :=
  { Instructions := "Code verified cancellation", StatusDateTime := "11" }

/-- A record holding both cancellation scans, most recent first. -/
def cxlTrack : Tracking := { Scans := [cxlLate, cxlEarly] }

/-- A record whose raw status label is "Dispatched". -/
def trkDispatched : Tracking := { Status := { Status := "Dispatched" } }

/-- An issue already in the IN - TRANSIT workflow status. -/
def issInTransit : Issue := { status := "IN - TRANSIT" }

/-- An issue with every write-once field already populated. -/
def issAllSet : Issue :=
  { promisedDeliveryDate := "2024-01-01", rtoReason := "some reason",
    rtoInitiatedDate := "2024-01-02", outForDeliveryDate := "2024-01-03" }

/-- A record carrying only a dispatch timestamp. -/
def trkOrigin : Tracking := { OriginRecieveDate := "2024-01-02" }

/-! ## Lemmas: pointwise behaviour of the delta steps -/

theorem Delta.set_app (d : Delta) (k : FieldId) (v : String) (k' : FieldId) :
    (d.set k v) k' = if k' = k then some v else d k' := rfl

theorem Delta.empty_app (k : FieldId) : Delta.empty k = none := rfl

theorem stepDispatch_self (dl : DateLib) (issue : Issue) (t : Tracking) (d : Delta) :
    stepDispatch dl issue t d .dispatchDate =
      if t.OriginRecieveDate ≠ "" ∧ issue.dispatchDate ≠ dl.fmt t.OriginRecieveDate
      then some (dl.fmt t.OriginRecieveDate) else d .dispatchDate := by
  unfold stepDispatch
  by_cases h1 : t.OriginRecieveDate = "" <;>
    by_cases h2 : issue.dispatchDate = dl.fmt t.OriginRecieveDate <;>
      simp [h1, h2, Delta.set]

theorem stepDispatch_ne (dl : DateLib) (issue : Issue) (t : Tracking) (d : Delta)
    (k : FieldId) (hk : k ≠ .dispatchDate) :
    stepDispatch dl issue t d k = d k := by
  unfold stepDispatch
  by_cases h1 : t.OriginRecieveDate = "" <;>
    by_cases h2 : issue.dispatchDate = dl.fmt t.OriginRecieveDate <;>
      simp [h1, h2, Delta.set, hk]

theorem stepDelivery_self (dl : DateLib) (issue : Issue) (t : Tracking) (st : String) (d : Delta) :
    stepDelivery dl issue t st d .deliveryDate =
      if t.DeliveryDate ≠ "" ∧ st = "DELIVERED" ∧ issue.deliveryDate ≠ dl.fmt t.DeliveryDate
      then some (dl.fmt t.DeliveryDate) else d .deliveryDate := by
  unfold stepDelivery
  by_cases h1 : t.DeliveryDate = "" <;> by_cases h2 : st = "DELIVERED" <;>
    by_cases h3 : issue.deliveryDate = dl.fmt t.DeliveryDate <;>
      simp [h1, h2, h3, Delta.set]

theorem stepDelivery_ne (dl : DateLib) (issue : Issue) (t : Tracking) (st : String) (d : Delta)
    (k : FieldId) (hk : k ≠ .deliveryDate) :
    stepDelivery dl issue t st d k = d k := by
  unfold stepDelivery
  by_cases h1 : t.DeliveryDate = "" <;> by_cases h2 : st = "DELIVERED" <;>
    by_cases h3 : issue.deliveryDate = dl.fmt t.DeliveryDate <;>
      simp [h1, h2, h3, Delta.set, hk]

theorem stepRtoDate_self (dl : DateLib) (issue : Issue) (t : Tracking) (st : String) (d : Delta) :
    stepRtoDate dl issue t st d .rtoDeliveredDate =
      if t.ReturnedDate ≠ "" ∧ st = "RTO DELIVERED" ∧ issue.rtoDeliveredDate ≠ dl.fmt t.ReturnedDate
      then some (dl.fmt t.ReturnedDate) else d .rtoDeliveredDate := by
  unfold stepRtoDate
  by_cases h1 : t.ReturnedDate = "" <;> by_cases h2 : st = "RTO DELIVERED" <;>
    by_cases h3 : issue.rtoDeliveredDate = dl.fmt t.ReturnedDate <;>
      simp [h1, h2, h3, Delta.set]

theorem stepRtoDate_ne (dl : DateLib) (issue : Issue) (t : Tracking) (st : String) (d : Delta)
    (k : FieldId) (hk : k ≠ .rtoDeliveredDate) :
    stepRtoDate dl issue t st d k = d k := by
  unfold stepRtoDate
  by_cases h1 : t.ReturnedDate = "" <;> by_cases h2 : st = "RTO DELIVERED" <;>
    by_cases h3 : issue.rtoDeliveredDate = dl.fmt t.ReturnedDate <;>
      simp [h1, h2, h3, Delta.set, hk]

theorem stepPDD_self (dl : DateLib) (issue : Issue) (t : Tracking) (d : Delta) :
    stepPDD dl issue t d .promisedDeliveryDate =
      if issue.promisedDeliveryDate = "" ∧ t.PromisedDeliveryDate ≠ "" ∧ pddValue dl t ≠ ""
      then some (pddValue dl t) else d .promisedDeliveryDate := by
  unfold stepPDD pddValue
  by_cases h1 : issue.promisedDeliveryDate = "" <;>
    by_cases h2 : t.PromisedDeliveryDate = "" <;>
      by_cases h3 : dl.valid t.PromisedDeliveryDate <;>
        by_cases h4 : dl.fmt t.PromisedDeliveryDate = "" <;>
          simp [h1, h2, h3, h4, Delta.set]

theorem stepPDD_ne (dl : DateLib) (issue : Issue) (t : Tracking) (d : Delta)
    (k : FieldId) (hk : k ≠ .promisedDeliveryDate) :
    stepPDD dl issue t d k = d k := by
  unfold stepPDD
  by_cases h1 : issue.promisedDeliveryDate = "" <;>
    by_cases h2 : t.PromisedDeliveryDate = "" <;>
      by_cases h3 : dl.valid t.PromisedDeliveryDate <;>
        by_cases h4 : dl.fmt t.PromisedDeliveryDate = "" <;>
          simp [h1, h2, h3, h4, Delta.set, hk]

theorem stepLatestPDD_self (dl : DateLib) (issue : Issue) (t : Tracking) (d : Delta) :
    stepLatestPDD dl issue t d .latestPdd =
      if latestPddValue dl t ≠ "" ∧ latestPddValue dl t ≠ issue.latestPdd
      then some (latestPddValue dl t) else d .latestPdd := by
  unfold stepLatestPDD latestPddValue
  by_cases h1 : jsOr t.ExpectedDeliveryDate t.PromisedDeliveryDate = "" <;>
    by_cases h2 : dl.valid (jsOr t.ExpectedDeliveryDate t.PromisedDeliveryDate) <;>
      by_cases h3 : dl.fmt (jsOr t.ExpectedDeliveryDate t.PromisedDeliveryDate) = "" <;>
        by_cases h4 :
          dl.fmt (jsOr t.ExpectedDeliveryDate t.PromisedDeliveryDate) = issue.latestPdd <;>
          simp [h1, h2, h3, h4, Delta.set]

theorem stepLatestPDD_ne (dl : DateLib) (issue : Issue) (t : Tracking) (d : Delta)
    (k : FieldId) (hk : k ≠ .latestPdd) :
    stepLatestPDD dl issue t d k = d k := by
  unfold stepLatestPDD
  by_cases h1 : jsOr t.ExpectedDeliveryDate t.PromisedDeliveryDate = "" <;>
    by_cases h2 : dl.valid (jsOr t.ExpectedDeliveryDate t.PromisedDeliveryDate) <;>
      by_cases h3 : dl.fmt (jsOr t.ExpectedDeliveryDate t.PromisedDeliveryDate) = "" <;>
        by_cases h4 :
          dl.fmt (jsOr t.ExpectedDeliveryDate t.PromisedDeliveryDate) = issue.latestPdd <;>
          simp [h1, h2, h3, h4, Delta.set, hk]

theorem stepOFDStatus_self (dl : DateLib) (issue : Issue) (t : Tracking) (st : String) (d : Delta) :
    stepOFDStatus dl issue t st d .outForDeliveryDate =
      if issue.outForDeliveryDate = "" ∧ st = "OUT FOR DELIVERY" ∧ ofdDateValue dl t ≠ ""
      then some (ofdDateValue dl t) else d .outForDeliveryDate := by
  unfold stepOFDStatus ofdDateValue ofdWhenValue
  by_cases h1 : issue.outForDeliveryDate = "" <;>
    by_cases h2 : st = "OUT FOR DELIVERY" <;>
      by_cases h3 : getOFDWhen dl t (getLatestInstruction dl t) = "" <;>
        by_cases h4 : dl.fmt (getOFDWhen dl t (getLatestInstruction dl t)) = "" <;>
          simp [h1, h2, h3, h4, Delta.set]

theorem stepOFDStatus_ne (dl : DateLib) (issue : Issue) (t : Tracking) (st : String) (d : Delta)
    (k : FieldId) (hk : k ≠ .outForDeliveryDate) :
    stepOFDStatus dl issue t st d k = d k := by
  unfold stepOFDStatus
  by_cases h1 : issue.outForDeliveryDate = "" <;>
    by_cases h2 : st = "OUT FOR DELIVERY" <;>
      by_cases h3 : getOFDWhen dl t (getLatestInstruction dl t) = "" <;>
        by_cases h4 : dl.fmt (getOFDWhen dl t (getLatestInstruction dl t)) = "" <;>
          simp [h1, h2, h3, h4, Delta.set, hk]

theorem stepRtoFields_reason (dl : DateLib) (issue : Issue) (t : Tracking) (st : String)
    (d : Delta) :
    stepRtoFields dl issue t st d .rtoReason =
      if (st = "RTO IN - TRANSIT" ∨ st = "RTO DELIVERED") ∧ issue.rtoReason = "" ∧
          rtoReasonValue dl t ≠ ""
      then some (rtoReasonValue dl t) else d .rtoReason := by
  unfold stepRtoFields rtoReasonValue
  cases hc : findVerifiedCancellation dl t with
  | none => simp
  | some ce =>
    by_cases h1 : st = "RTO IN - TRANSIT" ∨ st = "RTO DELIVERED" <;>
      by_cases h2 : issue.rtoReason = "" <;>
        by_cases h3 : trimStr ce.Instructions = "" <;>
          simp [h1, h2, h3, Delta.set, apply_ite (fun f : Delta => f FieldId.rtoReason)]

theorem stepRtoFields_init (dl : DateLib) (issue : Issue) (t : Tracking) (st : String)
    (d : Delta) :
    stepRtoFields dl issue t st d .rtoInitiatedDate =
      if (st = "RTO IN - TRANSIT" ∨ st = "RTO DELIVERED") ∧ issue.rtoInitiatedDate = "" ∧
          rtoDateValue dl t ≠ ""
      then some (rtoDateValue dl t) else d .rtoInitiatedDate := by
  unfold stepRtoFields rtoDateValue
  cases hc : findVerifiedCancellation dl t with
  | none => simp
  | some ce =>
    by_cases h1 : st = "RTO IN - TRANSIT" ∨ st = "RTO DELIVERED" <;>
      by_cases h2 : issue.rtoInitiatedDate = "" <;>
        by_cases h3 : jsOr ce.StatusDateTime ce.ScanDateTime = "" <;>
          by_cases h4 : dl.fmt (jsOr ce.StatusDateTime ce.ScanDateTime) = "" <;>
            simp [h1, h2, h3, h4, Delta.set,
              apply_ite (fun f : Delta => f FieldId.rtoInitiatedDate)]

theorem stepRtoFields_ne (dl : DateLib) (issue : Issue) (t : Tracking) (st : String)
    (d : Delta) (k : FieldId) (hk1 : k ≠ .rtoReason) (hk2 : k ≠ .rtoInitiatedDate) :
    stepRtoFields dl issue t st d k = d k := by
  unfold stepRtoFields
  cases hc : findVerifiedCancellation dl t with
  | none => simp
  | some ce =>
    by_cases h1 : st = "RTO IN - TRANSIT" ∨ st = "RTO DELIVERED" <;>
      by_cases h2 : issue.rtoReason = "" <;>
        by_cases h3 : trimStr ce.Instructions = "" <;>
          by_cases h4 : issue.rtoInitiatedDate = "" <;>
            simp [h1, h2, h3, h4, Delta.set, hk1, hk2,
              apply_ite (fun f : Delta => f k)]

theorem stepInstrOFD_instr (dl : DateLib) (issue : Issue) (t : Tracking) (d : Delta) :
    stepInstrOFD dl issue t d .latestInstruction =
      if instrValue dl t ≠ "" ∧ issue.latestInstruction ≠ instrValue dl t
      then some (instrValue dl t) else d .latestInstruction := by
  unfold stepInstrOFD instrValue
  cases hli : getLatestInstruction dl t with
  | none => simp
  | some li =>
    by_cases h1 : li.instruction = "" <;>
      by_cases h2 : issue.latestInstruction = li.instruction <;>
        by_cases h3 : issue.outForDeliveryDate = "" <;>
          by_cases h4 : containsCI li.instruction "out for delivery" <;>
            simp [h1, h2, h3, h4, Delta.set, apply_ite (fun f : Delta => f FieldId.latestInstruction)]

theorem stepInstrOFD_ofd (dl : DateLib) (issue : Issue) (t : Tracking) (d : Delta) :
    stepInstrOFD dl issue t d .outForDeliveryDate =
      if issue.outForDeliveryDate = "" ∧ instrMatchesOFD dl t = true ∧ ofdDateValue dl t ≠ ""
      then some (ofdDateValue dl t) else d .outForDeliveryDate := by
  unfold stepInstrOFD instrMatchesOFD ofdDateValue ofdWhenValue
  cases hli : getLatestInstruction dl t with
  | none => simp
  | some li =>
    by_cases h1 : li.instruction = "" <;>
      by_cases h2 : issue.latestInstruction = li.instruction <;>
        by_cases h3 : issue.outForDeliveryDate = "" <;>
          by_cases h4 : containsCI li.instruction "out for delivery" <;>
            by_cases h5 : getOFDWhen dl t (some li) = "" <;>
              by_cases h6 : dl.fmt (getOFDWhen dl t (some li)) = "" <;>
                simp [h1, h2, h3, h4, h5, h6, Delta.set,
                  apply_ite (fun f : Delta => f FieldId.outForDeliveryDate)]

theorem stepInstrOFD_ne (dl : DateLib) (issue : Issue) (t : Tracking) (d : Delta)
    (k : FieldId) (hk1 : k ≠ .latestInstruction) (hk2 : k ≠ .outForDeliveryDate) :
    stepInstrOFD dl issue t d k = d k := by
  unfold stepInstrOFD
  cases hli : getLatestInstruction dl t with
  | none => simp
  | some li =>
    by_cases h1 : li.instruction = "" <;>
      by_cases h2 : issue.latestInstruction = li.instruction <;>
        by_cases h3 : issue.outForDeliveryDate = "" <;>
          by_cases h4 : containsCI li.instruction "out for delivery" <;>
            simp [h1, h2, h3, h4, Delta.set, hk1, hk2, apply_ite (fun f : Delta => f k)]

/-! ## Lemmas: the delta characterized key by key -/

theorem cf_dispatch (dl : DateLib) (issue : Issue) (t : Tracking) (st : String) :
    computeCustomFields dl issue t st .dispatchDate =
      if t.OriginRecieveDate ≠ "" ∧ issue.dispatchDate ≠ dl.fmt t.OriginRecieveDate
      then some (dl.fmt t.OriginRecieveDate) else none := by
  unfold computeCustomFields buildDateUpdates
  rw [stepOFDStatus_ne _ _ _ _ _ _ (by decide),
      stepInstrOFD_ne _ _ _ _ _ (by decide) (by decide),
      stepRtoFields_ne _ _ _ _ _ _ (by decide) (by decide),
      stepLatestPDD_ne _ _ _ _ _ (by decide),
      stepPDD_ne _ _ _ _ _ (by decide),
      stepRtoDate_ne _ _ _ _ _ _ (by decide),
      stepDelivery_ne _ _ _ _ _ _ (by decide),
      stepDispatch_self]
  rfl

theorem cf_delivery (dl : DateLib) (issue : Issue) (t : Tracking) (st : String) :
    computeCustomFields dl issue t st .deliveryDate =
      if t.DeliveryDate ≠ "" ∧ st = "DELIVERED" ∧ issue.deliveryDate ≠ dl.fmt t.DeliveryDate
      then some (dl.fmt t.DeliveryDate) else none := by
  unfold computeCustomFields buildDateUpdates
  rw [stepOFDStatus_ne _ _ _ _ _ _ (by decide),
      stepInstrOFD_ne _ _ _ _ _ (by decide) (by decide),
      stepRtoFields_ne _ _ _ _ _ _ (by decide) (by decide),
      stepLatestPDD_ne _ _ _ _ _ (by decide),
      stepPDD_ne _ _ _ _ _ (by decide),
      stepRtoDate_ne _ _ _ _ _ _ (by decide),
      stepDelivery_self, stepDispatch_ne _ _ _ _ _ (by decide)]
  rfl

theorem cf_rtoDate (dl : DateLib) (issue : Issue) (t : Tracking) (st : String) :
    computeCustomFields dl issue t st .rtoDeliveredDate =
      if t.ReturnedDate ≠ "" ∧ st = "RTO DELIVERED" ∧ issue.rtoDeliveredDate ≠ dl.fmt t.ReturnedDate
      then some (dl.fmt t.ReturnedDate) else none := by
  unfold computeCustomFields buildDateUpdates
  rw [stepOFDStatus_ne _ _ _ _ _ _ (by decide),
      stepInstrOFD_ne _ _ _ _ _ (by decide) (by decide),
      stepRtoFields_ne _ _ _ _ _ _ (by decide) (by decide),
      stepLatestPDD_ne _ _ _ _ _ (by decide),
      stepPDD_ne _ _ _ _ _ (by decide),
      stepRtoDate_self, stepDelivery_ne _ _ _ _ _ _ (by decide),
      stepDispatch_ne _ _ _ _ _ (by decide)]
  rfl

theorem cf_pdd (dl : DateLib) (issue : Issue) (t : Tracking) (st : String) :
    computeCustomFields dl issue t st .promisedDeliveryDate =
      if issue.promisedDeliveryDate = "" ∧ t.PromisedDeliveryDate ≠ "" ∧ pddValue dl t ≠ ""
      then some (pddValue dl t) else none := by
  unfold computeCustomFields buildDateUpdates
  rw [stepOFDStatus_ne _ _ _ _ _ _ (by decide),
      stepInstrOFD_ne _ _ _ _ _ (by decide) (by decide),
      stepRtoFields_ne _ _ _ _ _ _ (by decide) (by decide),
      stepLatestPDD_ne _ _ _ _ _ (by decide),
      stepPDD_self, stepRtoDate_ne _ _ _ _ _ _ (by decide),
      stepDelivery_ne _ _ _ _ _ _ (by decide),
      stepDispatch_ne _ _ _ _ _ (by decide)]
  rfl

theorem cf_latestPdd (dl : DateLib) (issue : Issue) (t : Tracking) (st : String) :
    computeCustomFields dl issue t st .latestPdd =
      if latestPddValue dl t ≠ "" ∧ latestPddValue dl t ≠ issue.latestPdd
      then some (latestPddValue dl t) else none := by
  unfold computeCustomFields buildDateUpdates
  rw [stepOFDStatus_ne _ _ _ _ _ _ (by decide),
      stepInstrOFD_ne _ _ _ _ _ (by decide) (by decide),
      stepRtoFields_ne _ _ _ _ _ _ (by decide) (by decide),
      stepLatestPDD_self, stepPDD_ne _ _ _ _ _ (by decide),
      stepRtoDate_ne _ _ _ _ _ _ (by decide),
      stepDelivery_ne _ _ _ _ _ _ (by decide),
      stepDispatch_ne _ _ _ _ _ (by decide)]
  rfl

theorem cf_rtoReason (dl : DateLib) (issue : Issue) (t : Tracking) (st : String) :
    computeCustomFields dl issue t st .rtoReason =
      if (st = "RTO IN - TRANSIT" ∨ st = "RTO DELIVERED") ∧ issue.rtoReason = "" ∧
          rtoReasonValue dl t ≠ ""
      then some (rtoReasonValue dl t) else none := by
  unfold computeCustomFields buildDateUpdates
  rw [stepOFDStatus_ne _ _ _ _ _ _ (by decide),
      stepInstrOFD_ne _ _ _ _ _ (by decide) (by decide),
      stepRtoFields_reason, stepLatestPDD_ne _ _ _ _ _ (by decide),
      stepPDD_ne _ _ _ _ _ (by decide),
      stepRtoDate_ne _ _ _ _ _ _ (by decide),
      stepDelivery_ne _ _ _ _ _ _ (by decide),
      stepDispatch_ne _ _ _ _ _ (by decide)]
  rfl

theorem cf_rtoInit (dl : DateLib) (issue : Issue) (t : Tracking) (st : String) :
    computeCustomFields dl issue t st .rtoInitiatedDate =
      if (st = "RTO IN - TRANSIT" ∨ st = "RTO DELIVERED") ∧ issue.rtoInitiatedDate = "" ∧
          rtoDateValue dl t ≠ ""
      then some (rtoDateValue dl t) else none := by
  unfold computeCustomFields buildDateUpdates
  rw [stepOFDStatus_ne _ _ _ _ _ _ (by decide),
      stepInstrOFD_ne _ _ _ _ _ (by decide) (by decide),
      stepRtoFields_init, stepLatestPDD_ne _ _ _ _ _ (by decide),
      stepPDD_ne _ _ _ _ _ (by decide),
      stepRtoDate_ne _ _ _ _ _ _ (by decide),
      stepDelivery_ne _ _ _ _ _ _ (by decide),
      stepDispatch_ne _ _ _ _ _ (by decide)]
  rfl

theorem cf_instr (dl : DateLib) (issue : Issue) (t : Tracking) (st : String) :
    computeCustomFields dl issue t st .latestInstruction =
      if instrValue dl t ≠ "" ∧ issue.latestInstruction ≠ instrValue dl t
      then some (instrValue dl t) else none := by
  unfold computeCustomFields buildDateUpdates
  rw [stepOFDStatus_ne _ _ _ _ _ _ (by decide),
      stepInstrOFD_instr,
      stepRtoFields_ne _ _ _ _ _ _ (by decide) (by decide),
      stepLatestPDD_ne _ _ _ _ _ (by decide),
      stepPDD_ne _ _ _ _ _ (by decide),
      stepRtoDate_ne _ _ _ _ _ _ (by decide),
      stepDelivery_ne _ _ _ _ _ _ (by decide),
      stepDispatch_ne _ _ _ _ _ (by decide)]
  rfl

theorem cf_ofd (dl : DateLib) (issue : Issue) (t : Tracking) (st : String) :
    computeCustomFields dl issue t st .outForDeliveryDate =
      if issue.outForDeliveryDate = "" ∧ (instrMatchesOFD dl t = true ∨ st = "OUT FOR DELIVERY") ∧
          ofdDateValue dl t ≠ ""
      then some (ofdDateValue dl t) else none := by
  unfold computeCustomFields buildDateUpdates
  rw [stepOFDStatus_self, stepInstrOFD_ofd,
      stepRtoFields_ne _ _ _ _ _ _ (by decide) (by decide),
      stepLatestPDD_ne _ _ _ _ _ (by decide),
      stepPDD_ne _ _ _ _ _ (by decide),
      stepRtoDate_ne _ _ _ _ _ _ (by decide),
      stepDelivery_ne _ _ _ _ _ _ (by decide),
      stepDispatch_ne _ _ _ _ _ (by decide)]
  by_cases h1 : issue.outForDeliveryDate = "" <;>
    by_cases h2 : instrMatchesOFD dl t = true <;>
      by_cases h3 : st = "OUT FOR DELIVERY" <;>
        by_cases h4 : ofdDateValue dl t = "" <;>
          simp [h1, h2, h3, h4, Delta.empty]

/-! ## Lemmas: the stable sort and the retry loop -/

theorem length_insertSorted (lt : α → α → Bool) (a : α) (l : List α) :
    (insertSorted lt a l).length = l.length + 1 := by
  induction l with
  | nil => rfl
  | cons b bs ih =>
    unfold insertSorted
    by_cases h : lt a b <;> simp [h, ih]

theorem mem_insertSorted (lt : α → α → Bool) (a x : α) (l : List α) :
    x ∈ insertSorted lt a l ↔ x = a ∨ x ∈ l := by
  induction l with
  | nil => simp [insertSorted]
  | cons b bs ih =>
    unfold insertSorted
    by_cases h : lt a b <;> simp [h, ih] <;> tauto

theorem mem_sortBy (lt : α → α → Bool) (x : α) (l : List α) :
    x ∈ sortBy lt l ↔ x ∈ l := by
  induction l with
  | nil => simp [sortBy]
  | cons a as ih =>
    unfold sortBy
    rw [mem_insertSorted]
    simp [ih]

theorem sortBy_head_min (key : α → Nat) (l : List α) (x : α)
    (h : (sortBy (fun a b => key a < key b) l).head? = some x) :
    x ∈ l ∧ ∀ y ∈ l, key x ≤ key y := by
  induction l generalizing x with
  | nil => simp [sortBy] at h
  | cons a as ih =>
    unfold sortBy at h
    cases hs : sortBy (fun a b => key a < key b) as with
    | nil =>
      rw [hs] at h
      have hasnil : as = [] := by
        have hlen := congrArg List.length hs
        cases as with
        | nil => rfl
        | cons a2 as2 =>
          rw [show sortBy (fun a b => key a < key b) (a2 :: as2) =
                insertSorted (fun a b => key a < key b) a2
                  (sortBy (fun a b => key a < key b) as2) from rfl,
              length_insertSorted] at hlen
          simp at hlen
      subst hasnil
      simp [insertSorted] at h
      subst h
      exact ⟨by simp, by simp⟩
    | cons b bs =>
      rw [hs] at h
      obtain ⟨hbmem, hbmin⟩ := ih b (by rw [hs]; rfl)
      unfold insertSorted at h
      by_cases hab : key a < key b
      · simp [hab] at h
        subst h
        refine ⟨by simp, ?_⟩
        intro y hy
        rcases List.mem_cons.1 hy with rfl | hy2
        · exact Nat.le_refl _
        · exact Nat.le_trans (Nat.le_of_lt hab) (hbmin y hy2)
      · simp [hab] at h
        subst h
        refine ⟨List.mem_cons_of_mem a hbmem, ?_⟩
        intro y hy
        rcases List.mem_cons.1 hy with rfl | hy2
        · exact Nat.le_of_not_lt hab
        · exact hbmin y hy2

theorem retryRun_attempts_le (results : List (Option α)) :
    (retryRun results).2 ≤ results.length := by
  induction results with
  | nil => simp [retryRun]
  | cons r rest ih =>
    cases r with
    | none =>
      simp only [retryRun, List.length_cons]
      exact Nat.succ_le_succ ih
    | some v => simp [retryRun]

theorem retryRun_all_fail (results : List (Option α)) (h : ∀ r ∈ results, r = none) :
    retryRun results = (none, results.length) := by
  induction results with
  | nil => rfl
  | cons r rest ih =>
    have hr : r = none := h r (by simp)
    subst hr
    have hrest := ih (fun r hr => h r (by simp [hr]))
    simp [retryRun, hrest]

/-! ## Claim theorems -/

/-- C1: for every shipment record carrying a return-in-progress signal
(reverse-in-transit flag, RTO-start timestamp, return-type scan code, recent
RT scan, or return keywords — i.e. `isReturnFlow`) together with a terminal
forward-delivery signal (non-empty `DeliveryDate`, terminal `DL`
status/scan type, or "delivered" in the status/instruction text) and no
terminal-return signal, `interpretStatus` classifies `DELIVERED`, not
`RTO IN - TRANSIT`: the forward-terminal rule is evaluated strictly before
the return-in-progress rule. -/
theorem interpret_forward_terminal_beats_return_flow (t : Tracking)
    (hterm : hasTerminalRTO t = false)
    (hret : isReturnFlow t = true)
    (hfwd : forwardTerminalSignal t = true) :
    interpretStatus t = some "DELIVERED" := by
  unfold interpretStatus
  simp [hterm, hfwd]

theorem interpret_forward_terminal_beats_return_flow_witness :
    hasTerminalRTO { ReverseInTransit := true, DeliveryDate := "2024-01-05" } = false ∧
    isReturnFlow { ReverseInTransit := true, DeliveryDate := "2024-01-05" } = true ∧
    forwardTerminalSignal { ReverseInTransit := true, DeliveryDate := "2024-01-05" } = true ∧
    interpretStatus { ReverseInTransit := true, DeliveryDate := "2024-01-05" } = some "DELIVERED" :=
  ⟨by decide, by decide, by decide,
   interpret_forward_terminal_beats_return_flow _ (by decide) (by decide) (by decide)⟩

/-- C2: a record with a non-empty return-completion timestamp
(`ReturnedDate`) classifies `RTO DELIVERED` regardless of every other
signal: `hasTerminalRTO` is the first rule of the cascade and a non-empty
`ReturnedDate` makes it fire. -/
theorem interpret_returned_date_dominates (t : Tracking) (h : t.ReturnedDate ≠ "") :
    interpretStatus t = some "RTO DELIVERED" := by
  have hterm : hasTerminalRTO t = true := by
    unfold hasTerminalRTO
    simp [h]
  unfold interpretStatus
  simp [hterm]

theorem interpret_returned_date_dominates_witness :
    interpretStatus
      { ReturnedDate := "2024-01-01", DeliveryDate := "2024-01-02",
        Status := { Status := "Delivered", ScanType := "DL", Instructions := "delivered to consignee" } }
      = some "RTO DELIVERED" :=
  interpret_returned_date_dominates _ (by decide)

/-- C10: on a degenerate record — absent `Status` object, absent/empty scan
list, no terminal timestamps, no return flags — every classification helper
evaluates (to `false`), `interpretStatus` returns `none`, and the driver
takes the unknown-status skip branch before any field computation. -/
theorem degenerate_record_unknown_skip (dl : DateLib) (issue : Issue) (t : Tracking)
    (hS : t.Status = {}) (hsc : t.Scans = [])
    (hdd : t.DeliveryDate = "") (hrd : t.ReturnedDate = "")
    (hrs : t.RTOStartedDate = "") (hrev : t.ReverseInTransit = false) :
    hasRecentRTScan t = false ∧ hasTerminalRTO t = false ∧ isReturnFlow t = false ∧
    interpretStatus t = none ∧
    processIssue dl issue (some t) = Outcome.unknownStatus := by
  obtain ⟨S, sc, dd, rd, rs, rev, o1, o2, o3, o4⟩ := t
  dsimp only at hS hsc hdd hrd hrs hrev
  subst hS hsc hdd hrd hrs hrev
  exact ⟨rfl, rfl, rfl, rfl, rfl⟩

theorem degenerate_record_unknown_skip_witness :
    interpretStatus {} = none ∧ processIssue dlTest {} (some {}) = Outcome.unknownStatus :=
  ⟨(degenerate_record_unknown_skip dlTest {} {} rfl rfl rfl rfl rfl rfl).2.2.2.1,
   (degenerate_record_unknown_skip dlTest {} {} rfl rfl rfl rfl rfl rfl).2.2.2.2⟩

/-- C3 counterexample: when no offered transition matches (here: Jira offers
no transitions at all) and the prepared delta and comment are non-empty,
`updateJira` still performs a fields-only write and posts a note comment —
so "no field write, posts no comment" is false as stated. -/
theorem updateJira_no_transition_still_writes_cex :
    findTransitionByName [] "DELIVERED" = none ∧
    updateJiraActions [] "DELIVERED" (Delta.empty.set .dispatchDate "2024-01-01")
        (some "Order successfully delivered") =
      [JiraAction.putFieldsAct (Delta.empty.set .dispatchDate "2024-01-01"),
       JiraAction.commentAct
         "[Note] Intended status \"DELIVERED\" but no transition was available. Order successfully delivered"] :=
  ⟨rfl, rfl⟩

/-- C3 (amended): when no offered transition matches the classified phase,
the run executes no workflow transition and no assignee change for that
ticket; a fields-only update (when the delta is non-empty) and a note
comment (when a comment was prepared) do still occur. -/
theorem updateJira_no_transition_no_move (transitions : List TransitionCand)
    (newStatus : String) (customFields : Delta) (comment : Option String)
    (h : findTransitionByName transitions newStatus = none) :
    ∀ a ∈ updateJiraActions transitions newStatus customFields comment,
      a.isTransitionCall = false ∧ a.isAssignCall = false := by
  intro a ha
  unfold updateJiraActions at ha
  rw [h] at ha
  rcases List.mem_append.1 ha with h1 | h1
  · by_cases he : customFields.isEmpty
    · simp [he] at h1
    · simp [he] at h1
      subst h1
      exact ⟨rfl, rfl⟩
  · rcases comment with _ | c
    · simp at h1
    · unfold postCommentActions at h1
      by_cases hc :
          ("[Note] Intended status \"" ++ newStatus ++ "\" but no transition was available. " ++ c) = ""
      · simp [hc] at h1
      · simp [hc] at h1
        subst h1
        exact ⟨rfl, rfl⟩

theorem updateJira_no_transition_no_move_witness :
    findTransitionByName [] "NDR" = none ∧
    ∀ a ∈ updateJiraActions [] "NDR" Delta.empty (some "note"),
      a.isTransitionCall = false ∧ a.isAssignCall = false :=
  ⟨rfl, updateJira_no_transition_no_move [] "NDR" Delta.empty (some "note") rfl⟩

/-- C5: each write-once field (promised-delivery date, return reason,
return-initiated date, out-for-delivery date) that is already non-empty on
the ticket is never included in the computed delta, for any shipment record,
any classified phase and any candidate value. -/
theorem write_once_fields_not_in_delta (dl : DateLib) (issue : Issue) (t : Tracking)
    (st : String) :
    (issue.promisedDeliveryDate ≠ "" →
      computeCustomFields dl issue t st .promisedDeliveryDate = none) ∧
    (issue.rtoReason ≠ "" → computeCustomFields dl issue t st .rtoReason = none) ∧
    (issue.rtoInitiatedDate ≠ "" → computeCustomFields dl issue t st .rtoInitiatedDate = none) ∧
    (issue.outForDeliveryDate ≠ "" →
      computeCustomFields dl issue t st .outForDeliveryDate = none) := by
  refine ⟨fun h => ?_, fun h => ?_, fun h => ?_, fun h => ?_⟩
  · rw [cf_pdd]; simp [h]
  · rw [cf_rtoReason]; simp [h]
  · rw [cf_rtoInit]; simp [h]
  · rw [cf_ofd]; simp [h]

theorem write_once_fields_not_in_delta_witness :
    computeCustomFields dlTest issAllSet ofdLatestTrack "OUT FOR DELIVERY"
      .promisedDeliveryDate = none ∧
    computeCustomFields dlTest issAllSet ofdLatestTrack "OUT FOR DELIVERY" .rtoReason = none ∧
    computeCustomFields dlTest issAllSet ofdLatestTrack "OUT FOR DELIVERY"
      .rtoInitiatedDate = none ∧
    computeCustomFields dlTest issAllSet ofdLatestTrack "OUT FOR DELIVERY"
      .outForDeliveryDate = none :=
  ⟨(write_once_fields_not_in_delta dlTest issAllSet ofdLatestTrack "OUT FOR DELIVERY").1
      (by decide),
   (write_once_fields_not_in_delta dlTest issAllSet ofdLatestTrack "OUT FOR DELIVERY").2.1
      (by decide),
   (write_once_fields_not_in_delta dlTest issAllSet ofdLatestTrack "OUT FOR DELIVERY").2.2.1
      (by decide),
   (write_once_fields_not_in_delta dlTest issAllSet ofdLatestTrack "OUT FOR DELIVERY").2.2.2
      (by decide)⟩

/-- C6: every key present in the computed delta maps to a value that differs
from the ticket's currently stored value for that field (no no-op writes),
and the empty delta applied to a ticket changes nothing. -/
theorem delta_keys_differ_from_stored (dl : DateLib) (issue : Issue) (t : Tracking)
    (st : String) :
    (∀ k v, computeCustomFields dl issue t st k = some v → v ≠ issue.getField k) ∧
    applyDelta issue Delta.empty = issue := by
  constructor
  · intro k v hv
    cases k
    case dispatchDate =>
      rw [cf_dispatch] at hv
      split_ifs at hv with h
      · injection hv with hw; subst hw; exact Ne.symm h.2
    case deliveryDate =>
      rw [cf_delivery] at hv
      split_ifs at hv with h
      · injection hv with hw; subst hw; exact Ne.symm h.2.2
    case rtoDeliveredDate =>
      rw [cf_rtoDate] at hv
      split_ifs at hv with h
      · injection hv with hw; subst hw; exact Ne.symm h.2.2
    case promisedDeliveryDate =>
      rw [cf_pdd] at hv
      split_ifs at hv with h
      · injection hv with hw; subst hw
        simp only [Issue.getField]
        rw [h.1]; exact h.2.2
    case latestPdd =>
      rw [cf_latestPdd] at hv
      split_ifs at hv with h
      · injection hv with hw; subst hw; exact h.2
    case rtoReason =>
      rw [cf_rtoReason] at hv
      split_ifs at hv with h
      · injection hv with hw; subst hw
        simp only [Issue.getField]
        rw [h.2.1]; exact h.2.2
    case rtoInitiatedDate =>
      rw [cf_rtoInit] at hv
      split_ifs at hv with h
      · injection hv with hw; subst hw
        simp only [Issue.getField]
        rw [h.2.1]; exact h.2.2
    case outForDeliveryDate =>
      rw [cf_ofd] at hv
      split_ifs at hv with h
      · injection hv with hw; subst hw
        simp only [Issue.getField]
        rw [h.1]; exact h.2.2
    case latestInstruction =>
      rw [cf_instr] at hv
      split_ifs at hv with h
      · injection hv with hw; subst hw; exact Ne.symm h.2
  · rfl

theorem delta_keys_differ_from_stored_witness :
    computeCustomFields dlTest {} trkOrigin "IN - TRANSIT" .dispatchDate = some "2024-01-02" ∧
    ("2024-01-02" : String) ≠ ({} : Issue).getField .dispatchDate :=
  ⟨by decide,
   (delta_keys_differ_from_stored dlTest {} trkOrigin "IN - TRANSIT").1
     .dispatchDate "2024-01-02" (by decide)⟩

/-- C7 counterexample: a record whose scan history contains an
"Out for delivery" scan, with the ticket's OFD field empty, but whose latest
instruction does not match and whose classified phase is not
OUT FOR DELIVERY: the delta does not include the out-for-delivery date,
refuting "included ... regardless of which final phase". -/
theorem ofd_scan_only_not_written_cex :
    interpretStatus ofdHistoryOnly = some "IN - TRANSIT" ∧
    (ofdHistoryOnly.Scans.any fun sd => containsCI sd.Instructions "out for delivery") = true ∧
    ({} : Issue).outForDeliveryDate = "" ∧
    computeCustomFields dlTest {} ofdHistoryOnly "IN - TRANSIT" .outForDeliveryDate = none :=
  ⟨by decide, by decide, rfl, by decide⟩

/-- C7 (amended): for every ticket whose out-for-delivery date field is
empty and every record whose *latest* instruction matches "out for
delivery" and carries a timestamp (with a non-empty formatted date),
reconciliation includes the out-for-delivery date, taken from that latest
instruction, in the delta — regardless of which final phase the record
classifies to. -/
theorem ofd_latest_instruction_write (dl : DateLib) (issue : Issue) (t : Tracking)
    (st : String) (li : LatestIns)
    (hofd : issue.outForDeliveryDate = "")
    (hli : getLatestInstruction dl t = some li)
    (hmatch : containsCI li.instruction "out for delivery" = true)
    (hwhen : li.when ≠ "")
    (hfmt : dl.fmt li.when ≠ "") :
    computeCustomFields dl issue t st .outForDeliveryDate = some (dl.fmt li.when) := by
  have hm : instrMatchesOFD dl t = true := by
    unfold instrMatchesOFD
    rw [hli]
    exact hmatch
  have hw : ofdWhenValue dl t = li.when := by
    unfold ofdWhenValue getOFDWhen
    rw [hli]
    simp [hmatch, hwhen]
  have hv : ofdDateValue dl t = dl.fmt li.when := by
    unfold ofdDateValue
    rw [hw]
    simp [hwhen]
  rw [cf_ofd, hv]
  simp [hofd, hm, hfmt]

theorem ofd_latest_instruction_write_witness :
    getLatestInstruction dlTest ofdLatestTrack = some liOFD ∧
    computeCustomFields dlTest {} ofdLatestTrack "DELIVERED" .outForDeliveryDate =
      some "2024-02-02" :=
  ⟨by decide,
   ofd_latest_instruction_write dlTest {} ofdLatestTrack "DELIVERED" liOFD rfl (by decide)
     (by decide) (by decide) (by decide)⟩

/-- C8: the tracking client performs at most 3 attempts; when every attempt
fails it returns `none` ("unavailable") instead of raising; and the driver
maps a `none` tracking payload to the skip outcome for that ticket. -/
theorem tracking_retry_bounded_and_skip (dl : DateLib) (issue : Issue)
    (results : Fin 3 → Option Tracking) :
    (getTracking results).2 ≤ 3 ∧
    ((∀ i, results i = none) → (getTracking results).1 = none) ∧
    processIssue dl issue none = Outcome.noTracking := by
  refine ⟨?_, fun h => ?_, rfl⟩
  · have hle := retryRun_attempts_le (List.ofFn results)
    simpa [getTracking] using hle
  · have hall : ∀ r ∈ List.ofFn results, r = none := by
      intro r hr
      obtain ⟨i, rfl⟩ := Set.mem_range.1 ((List.mem_ofFn _ _).1 hr)
      exact h i
    have hfail := retryRun_all_fail (List.ofFn results) hall
    unfold getTracking
    rw [hfail]

theorem tracking_retry_bounded_and_skip_witness :
    (getTracking (fun _ => none)).2 ≤ 3 ∧
    (getTracking (fun _ => none)).1 = none ∧
    processIssue dlTest {} none = Outcome.noTracking :=
  ⟨(tracking_retry_bounded_and_skip dlTest {} (fun _ => none)).1,
   (tracking_retry_bounded_and_skip dlTest {} (fun _ => none)).2.1 (fun _ => rfl),
   (tracking_retry_bounded_and_skip dlTest {} (fun _ => none)).2.2⟩

/-- C9: when `findVerifiedCancellation` returns a scan, that scan is a
verified-cancellation match from the record's scan history whose timestamp
key (`StatusDateTime`, falling back to `ScanDateTime`, else epoch) is
minimal among all matching scans — the chronologically earliest match, not
the most recent one. -/
theorem verified_cancellation_earliest (dl : DateLib) (t : Tracking) (sd : ScanDetail)
    (h : findVerifiedCancellation dl t = some sd) :
    sd ∈ t.Scans ∧ verifiedCxlTest sd.Instructions = true ∧
    ∀ sd2 ∈ t.Scans, verifiedCxlTest sd2.Instructions = true →
      cxlTimeKey dl sd ≤ cxlTimeKey dl sd2 := by
  unfold findVerifiedCancellation at h
  obtain ⟨hmem, hmin⟩ := sortBy_head_min (cxlTimeKey dl) _ _ h
  rw [List.mem_filter] at hmem
  exact ⟨hmem.1, hmem.2,
    fun sd2 h2 hc2 => hmin sd2 (List.mem_filter.2 ⟨h2, hc2⟩)⟩

theorem verified_cancellation_earliest_witness :
    findVerifiedCancellation dlTest cxlTrack = some cxlEarly ∧
    (cxlEarly ∈ cxlTrack.Scans ∧ verifiedCxlTest cxlEarly.Instructions = true ∧
     ∀ sd2 ∈ cxlTrack.Scans, verifiedCxlTest sd2.Instructions = true →
       cxlTimeKey dlTest cxlEarly ≤ cxlTimeKey dlTest sd2) :=
  ⟨by decide, verified_cancellation_earliest dlTest cxlTrack cxlEarly (by decide)⟩

/-! ## Lemmas: stability of each delta key after a first run applied it -/

theorem stable_dispatch (dl : DateLib) (issue issue2 : Issue) (t : Tracking) (st : String)
    (h2 : issue2.dispatchDate =
      (computeCustomFields dl issue t st .dispatchDate).getD issue.dispatchDate) :
    computeCustomFields dl issue2 t st .dispatchDate = none := by
  rw [cf_dispatch] at h2 ⊢
  by_cases c1 : t.OriginRecieveDate = ""
  · simp [c1]
  · by_cases c2 : issue.dispatchDate = dl.fmt t.OriginRecieveDate
    · simp [c1, c2] at h2
      simp [h2, c2]
    · simp [c1, c2] at h2
      simp [h2]

theorem stable_delivery (dl : DateLib) (issue issue2 : Issue) (t : Tracking) (st : String)
    (h2 : issue2.deliveryDate =
      (computeCustomFields dl issue t st .deliveryDate).getD issue.deliveryDate) :
    computeCustomFields dl issue2 t st .deliveryDate = none := by
  rw [cf_delivery] at h2 ⊢
  by_cases c1 : t.DeliveryDate = ""
  · simp [c1]
  · by_cases cst : st = "DELIVERED"
    · by_cases c2 : issue.deliveryDate = dl.fmt t.DeliveryDate
      · simp [c1, cst, c2] at h2
        simp [h2, c2]
      · simp [c1, cst, c2] at h2
        simp [h2]
    · simp [cst]

theorem stable_rtoDate (dl : DateLib) (issue issue2 : Issue) (t : Tracking) (st : String)
    (h2 : issue2.rtoDeliveredDate =
      (computeCustomFields dl issue t st .rtoDeliveredDate).getD issue.rtoDeliveredDate) :
    computeCustomFields dl issue2 t st .rtoDeliveredDate = none := by
  rw [cf_rtoDate] at h2 ⊢
  by_cases c1 : t.ReturnedDate = ""
  · simp [c1]
  · by_cases cst : st = "RTO DELIVERED"
    · by_cases c2 : issue.rtoDeliveredDate = dl.fmt t.ReturnedDate
      · simp [c1, cst, c2] at h2
        simp [h2, c2]
      · simp [c1, cst, c2] at h2
        simp [h2]
    · simp [cst]

theorem stable_pdd (dl : DateLib) (issue issue2 : Issue) (t : Tracking) (st : String)
    (h2 : issue2.promisedDeliveryDate =
      (computeCustomFields dl issue t st .promisedDeliveryDate).getD issue.promisedDeliveryDate) :
    computeCustomFields dl issue2 t st .promisedDeliveryDate = none := by
  rw [cf_pdd] at h2 ⊢
  by_cases c1 : issue.promisedDeliveryDate = ""
  · by_cases c2 : t.PromisedDeliveryDate = ""
    · simp [c2]
    · by_cases c3 : pddValue dl t = ""
      · simp [c3]
      · simp [c1, c2, c3] at h2
        simp [h2, c3]
  · simp [c1] at h2
    simp [h2, c1]

theorem stable_latestPdd (dl : DateLib) (issue issue2 : Issue) (t : Tracking) (st : String)
    (h2 : issue2.latestPdd =
      (computeCustomFields dl issue t st .latestPdd).getD issue.latestPdd) :
    computeCustomFields dl issue2 t st .latestPdd = none := by
  rw [cf_latestPdd] at h2 ⊢
  by_cases c1 : latestPddValue dl t = ""
  · simp [c1]
  · by_cases c2 : latestPddValue dl t = issue.latestPdd
    · simp [c1, c2] at h2
      simp [h2, c2]
    · simp [c1, c2] at h2
      simp [h2]

theorem stable_rtoReason (dl : DateLib) (issue issue2 : Issue) (t : Tracking) (st : String)
    (h2 : issue2.rtoReason =
      (computeCustomFields dl issue t st .rtoReason).getD issue.rtoReason) :
    computeCustomFields dl issue2 t st .rtoReason = none := by
  rw [cf_rtoReason] at h2 ⊢
  by_cases cst : st = "RTO IN - TRANSIT" ∨ st = "RTO DELIVERED"
  · by_cases c1 : issue.rtoReason = ""
    · by_cases c3 : rtoReasonValue dl t = ""
      · simp [c3]
      · simp [cst, c1, c3] at h2
        simp [h2, c3]
    · simp [c1] at h2
      simp [h2, c1]
  · simp [cst]

theorem stable_rtoInit (dl : DateLib) (issue issue2 : Issue) (t : Tracking) (st : String)
    (h2 : issue2.rtoInitiatedDate =
      (computeCustomFields dl issue t st .rtoInitiatedDate).getD issue.rtoInitiatedDate) :
    computeCustomFields dl issue2 t st .rtoInitiatedDate = none := by
  rw [cf_rtoInit] at h2 ⊢
  by_cases cst : st = "RTO IN - TRANSIT" ∨ st = "RTO DELIVERED"
  · by_cases c1 : issue.rtoInitiatedDate = ""
    · by_cases c3 : rtoDateValue dl t = ""
      · simp [c3]
      · simp [cst, c1, c3] at h2
        simp [h2, c3]
    · simp [c1] at h2
      simp [h2, c1]
  · simp [cst]

theorem stable_instr (dl : DateLib) (issue issue2 : Issue) (t : Tracking) (st : String)
    (h2 : issue2.latestInstruction =
      (computeCustomFields dl issue t st .latestInstruction).getD issue.latestInstruction) :
    computeCustomFields dl issue2 t st .latestInstruction = none := by
  rw [cf_instr] at h2 ⊢
  by_cases c1 : instrValue dl t = ""
  · simp [c1]
  · by_cases c2 : issue.latestInstruction = instrValue dl t
    · simp [c1, c2] at h2
      simp [h2, c2]
    · simp [c1, c2] at h2
      simp [h2]

theorem stable_ofd (dl : DateLib) (issue issue2 : Issue) (t : Tracking) (st : String)
    (h2 : issue2.outForDeliveryDate =
      (computeCustomFields dl issue t st .outForDeliveryDate).getD issue.outForDeliveryDate) :
    computeCustomFields dl issue2 t st .outForDeliveryDate = none := by
  rw [cf_ofd] at h2 ⊢
  by_cases c3 : ofdDateValue dl t = ""
  · simp [c3]
  · by_cases cm : instrMatchesOFD dl t = true ∨ st = "OUT FOR DELIVERY"
    · by_cases c1 : issue.outForDeliveryDate = ""
      · simp [c3, cm, c1] at h2
        simp [h2, c3]
      · simp [c1] at h2
        simp [h2, c1]
    · simp [cm]

/-- C4: running the per-ticket reconciliation a second time on an unchanged
shipment record, immediately after a first run whose field delta was
applied and whose workflow status now normalizes equal to the classified
phase, computes an empty field delta and takes the skip branch (fields-only,
no transition attempt). -/
theorem second_run_empty_delta_and_skip (dl : DateLib) (issue : Issue) (t : Tracking)
    (st s2 : String) (hst : interpretStatus t = some st) (hs2 : s2 ≠ "")
    (hnorm : nameNorm s2 = nameNorm st) :
    computeCustomFields dl
        { applyDelta issue (computeCustomFields dl issue t st) with status := s2 } t st =
      Delta.empty ∧
    processIssue dl
        { applyDelta issue (computeCustomFields dl issue t st) with status := s2 }
        (some t) = Outcome.fieldsOnly Delta.empty := by
  have hempty : computeCustomFields dl
      { applyDelta issue (computeCustomFields dl issue t st) with status := s2 } t st =
      Delta.empty := by
    funext k
    cases k
    case dispatchDate => exact stable_dispatch dl issue _ t st rfl
    case deliveryDate => exact stable_delivery dl issue _ t st rfl
    case rtoDeliveredDate => exact stable_rtoDate dl issue _ t st rfl
    case promisedDeliveryDate => exact stable_pdd dl issue _ t st rfl
    case latestPdd => exact stable_latestPdd dl issue _ t st rfl
    case rtoReason => exact stable_rtoReason dl issue _ t st rfl
    case rtoInitiatedDate => exact stable_rtoInit dl issue _ t st rfl
    case outForDeliveryDate => exact stable_ofd dl issue _ t st rfl
    case latestInstruction => exact stable_instr dl issue _ t st rfl
  refine ⟨hempty, ?_⟩
  unfold processIssue
  dsimp only
  rw [hst]
  dsimp only
  rw [hempty]
  simp [hs2, hnorm]

theorem second_run_empty_delta_and_skip_witness :
    interpretStatus trkDispatched = some "IN - TRANSIT" ∧
    ("IN - TRANSIT" : String) ≠ "" ∧
    nameNorm "IN - TRANSIT" = nameNorm "IN - TRANSIT" ∧
    processIssue dlTest
        { applyDelta issInTransit
            (computeCustomFields dlTest issInTransit trkDispatched "IN - TRANSIT")
          with status := "IN - TRANSIT" }
        (some trkDispatched) = Outcome.fieldsOnly Delta.empty :=
  ⟨by decide, by decide, rfl,
   (second_run_empty_delta_and_skip dlTest issInTransit trkDispatched "IN - TRANSIT"
      "IN - TRANSIT" (by decide) (by decide) rfl).2⟩

end Poller
